import Mathlib

/-!
Shallow embedding of `src/main.rs` of `tplink-kasa-info`: a CLI client for
the TP-Link Kasa cloud API.  The remote service and the filesystem are the
only effects; we model them as an explicit oracle (responses indexed by the
number of calls made so far) and an explicit state carrying the content of
the credential record file at the resolved config path, together with
counters for the login and authenticated API requests issued so far.
Panics (`panic!`, `.unwrap()` failures on error responses) are modelled as
`Except.error` outcomes that terminate the invocation.
-/

/-- The `DEFAULT_CONFIG_PATH` constant from the source. -/
def DEFAULT_CONFIG_PATH : String := ".tplink.toml"

/-- The `config_path` function: resolves the config file path from an optional override,
defaulting to `$HOME/.tplink.toml`. -/
def config_path (home : String) : Option String → String
  | none => home ++ "/" ++ DEFAULT_CONFIG_PATH
  | some path => path

/-- The `Settings` struct: the deserialized credential record
`{username, password, token}`; all three fields are `String` (none optional). -/
structure Settings where
  username : String
  password : String
  token : String
deriving DecidableEq

/-- On-disk content of the credential record file, field by field: a TOML
document may have any subset of the three keys present. -/
structure FileRecord where
  username : Option String
  password : Option String
  token : Option String
deriving DecidableEq

/-- Serde/toml deserialization of `Settings` (`toml::from_slice`): every
field of the struct is required, since none is an `Option` or has a
default; a missing field makes deserialization fail. -/
def parseSettings (rec : FileRecord) : Option Settings :=
  match rec.username, rec.password, rec.token with
  | some u, some p, some t => some ⟨u, p, t⟩
  | _, _, _ => none

/-- The `LoginDetails` enum: credentials from the stored record
(`Settings`) or from explicit command-line flags (`UsernameAndPassword`). -/
inductive LoginDetails where
  | Settings (s : Settings)
  | UsernameAndPassword (username password : String)
deriving DecidableEq

/-- The `(username, password)` pair extracted from a `LoginDetails` by the
`match` at the top of `get_new_token`. -/
def login_credentials : LoginDetails → String × String
  | .Settings s => (s.username, s.password)
  | .UsernameAndPassword u p => (u, p)

/-- The `ApiResult` enum nested inside `runner`. -/
inductive ApiResult where
  | Success (r : String)
  | Error (e : String)
  | TokenExpired
deriving DecidableEq

/-- The ways one invocation can terminate abnormally: each constructor is a
`panic!` site (or an `.unwrap()` on a malformed response) in the source. -/
inductive RunError where
  | invalidArguments
  | missingConfiguration
  | configAlreadyExists
  | parseError
  | authenticationError (body : String)
  | apiError (body : String)
  | protocolInvariantViolation
  | tokenDecodeError
deriving DecidableEq

/-- A structured view of the remote response to a login request:
`error_code`, the `result.token` field when present, and the raw body. -/
structure LoginResponse where
  error_code : Int
  token : Option String
  body : String
deriving DecidableEq

/-- A structured view of the remote response to an authenticated request:
`error_code`, the `result` payload (opaque), and the raw body. -/
structure ApiResponse where
  error_code : Int
  result : String
  body : String
deriving DecidableEq

/-- Opaque request payload (`serde_json::Value` in the source). -/
abbrev Req := String

/-- The environment: the remote service's response to the `n`-th login call
(given the credentials sent) and to the `n`-th authenticated request (given
the request payload and the token in the URL). -/
structure Oracle where
  login : Nat → String → String → LoginResponse
  api : Nat → Req → String → ApiResponse

/-- Observable state of one invocation: the content of the credential
record file at the resolved config path (`none` when no file exists), and
how many login calls and authenticated requests have been issued. -/
structure St where
  file : Option FileRecord
  loginCalls : Nat
  apiCalls : Nat
deriving DecidableEq

/-- The `write_settings` function: serializes `{username, password, token}` to TOML and
writes it to the config path, replacing whatever was there. -/
def write_settings (username password token : String) (st : St) : St :=
  { st with file := some ⟨some username, some password, some token⟩ }

/-- The `get_new_token` function: sends the login request, fails on `error_code != 0`
(panic carrying the raw body) or on a missing `result.token` field
(`.unwrap()`), and on success persists the rotated token via
`write_settings` exactly when the credentials came from the stored record. -/
def get_new_token (oracle : Oracle) (login_details : LoginDetails) (st : St) :
    Except RunError String × St :=
  let username := (login_credentials login_details).1
  let password := (login_credentials login_details).2
  let response := oracle.login st.loginCalls username password
  let st1 : St := { st with loginCalls := st.loginCalls + 1 }
  if response.error_code ≠ 0 then
    (.error (.authenticationError response.body), st1)
  else
    match response.token with
    | none => (.error .tokenDecodeError, st1)
    | some token =>
      match login_details with
      | .Settings _ => (.ok token, write_settings username password token st1)
      | .UsernameAndPassword _ _ => (.ok token, st1)

/-- The `setup` subcommand: guard against an existing config unless `overwrite` is set,
then (prompted credentials are parameters here) log in and write the
record.  The write happens only after `get_new_token` returns. -/
def setup (oracle : Oracle) (overwrite : Bool) (username password : String)
    (st : St) : Except RunError Unit × St :=
  if overwrite = false ∧ st.file.isSome then
    (.error .configAlreadyExists, st)
  else
    match get_new_token oracle (.UsernameAndPassword username password) st with
    | (.error e, st1) => (.error e, st1)
    | (.ok token, st1) => (.ok (), write_settings username password token st1)

/-- The inner `go` of `runner`: posts the request with the given token and
classifies the response by `error_code`: `0` is success carrying `result`,
`-20651` is the token-expired sentinel, anything else is an error carrying
the raw body. -/
def go (oracle : Oracle) (request : Req) (token : String) (st : St) :
    ApiResult × St :=
  let response := oracle.api st.apiCalls request token
  let st1 : St := { st with apiCalls := st.apiCalls + 1 }
  if response.error_code = 0 then (.Success response.result, st1)
  else if response.error_code = -20651 then (.TokenExpired, st1)
  else (.Error response.body, st1)

/-- The inner `fetch_token_and_go` of `runner`: mint a fresh token, issue
the request once with it; a `TokenExpired` on this attempt is the
"token is supposedly expired but we just got it" panic. -/
def fetch_token_and_go (oracle : Oracle) (request : Req)
    (login_details : LoginDetails) (st : St) : Except RunError String × St :=
  match get_new_token oracle login_details st with
  | (.error e, st1) => (.error e, st1)
  | (.ok token, st1) =>
    match go oracle request token st1 with
    | (.Success r, st2) => (.ok r, st2)
    | (.TokenExpired, st2) => (.error .protocolInvariantViolation, st2)
    | (.Error e, st2) => (.error (.apiError e), st2)

/-- The credential-resolution `match` at the top of `runner`: exactly one
flag is a panic; both flags give explicit credentials; neither flag loads
the record file if it exists (deserialization failure is a panic) and
panics with the missing-configuration message otherwise. -/
def resolve_login_details (username password : Option String)
    (file : Option FileRecord) : Except RunError LoginDetails :=
  match username, password with
  | some _, none => .error .invalidArguments
  | none, some _ => .error .invalidArguments
  | some u, some p => .ok (.UsernameAndPassword u p)
  | none, none =>
    match file with
    | some rec =>
      match parseSettings rec with
      | some settings => .ok (.Settings settings)
      | none => .error .parseError
    | none => .error .missingConfiguration

/-- The `runner` function: resolve credentials, then for a stored identity try the
cached token first, falling back to `fetch_token_and_go` only on the
expiry sentinel; for explicit credentials always `fetch_token_and_go`. -/
def runner (oracle : Oracle) (request : Req)
    (username password : Option String) (st : St) :
    Except RunError String × St :=
  match resolve_login_details username password st.file with
  | .error e => (.error e, st)
  | .ok login_details =>
    match login_details with
    | .Settings s =>
      match go oracle request s.token st with
      | (.Success r, st1) => (.ok r, st1)
      | (.TokenExpired, st1) =>
        fetch_token_and_go oracle request (.Settings s) st1
      | (.Error e, st1) => (.error (.apiError e), st1)
    | .UsernameAndPassword u p =>
      fetch_token_and_go oracle request (.UsernameAndPassword u p) st

/-! ### Helper lemmas about the state after each operation -/

theorem go_state (oracle : Oracle) (request : Req) (token : String) (st : St) :
    (go oracle request token st).2 = { st with apiCalls := st.apiCalls + 1 } := by
  simp only [go]
  split
  · rfl
  · split <;> rfl

theorem get_new_token_counters (oracle : Oracle) (ld : LoginDetails) (st : St) :
    ((get_new_token oracle ld st).2).loginCalls = st.loginCalls + 1 ∧
    ((get_new_token oracle ld st).2).apiCalls = st.apiCalls := by
  simp only [get_new_token, write_settings]
  split
  · exact ⟨rfl, rfl⟩
  · split
    · exact ⟨rfl, rfl⟩
    · split <;> exact ⟨rfl, rfl⟩

theorem get_new_token_explicit_file (oracle : Oracle) (u p : String) (st : St) :
    ((get_new_token oracle (.UsernameAndPassword u p) st).2).file = st.file := by
  simp only [get_new_token, write_settings]
  split
  · rfl
  · split <;> rfl

theorem fetch_token_and_go_loginCalls (oracle : Oracle) (request : Req)
    (ld : LoginDetails) (st : St) :
    ((fetch_token_and_go oracle request ld st).2).loginCalls = st.loginCalls + 1 := by
  have hc := (get_new_token_counters oracle ld st).1
  unfold fetch_token_and_go
  rcases hg : get_new_token oracle ld st with ⟨res, st1⟩
  rw [hg] at hc
  cases res with
  | error e => simpa using hc
  | ok token =>
    have h2 := go_state oracle request token st1
    rcases hgo : go oracle request token st1 with ⟨ar, st2⟩
    rw [hgo] at h2
    cases ar <;> simp [hgo, h2] <;> simpa using hc

/-- Sanity example: with a cooperative environment the whole pipeline
computes. -/
def oracleAccept : Oracle :=
  { login := fun _ _ _ => ⟨0, some "TOK", "body"⟩
    api := fun _ _ _ => ⟨0, "payload", "body"⟩ }

example : runner oracleAccept "req" none none
    ⟨some ⟨some "u", some "p", some "T"⟩, 0, 0⟩ =
    (.ok "payload", ⟨some ⟨some "u", some "p", some "T"⟩, 0, 1⟩) := rfl

/-- A record that deserializes to `s` holds exactly the three fields of
`s`. -/
theorem parseSettings_eq_some (rec : FileRecord) (s : Settings)
    (h : parseSettings rec = some s) :
    rec = ⟨some s.username, some s.password, some s.token⟩ := by
  rcases rec with ⟨u?, p?, t?⟩
  cases u? <;> cases p? <;> cases t? <;> simp [parseSettings] at h
  rw [← h]

/-! ### Claims -/

/-- C3: for a `Stored` identity whose cached token is accepted by the
remote service (first response has `error_code == 0`), `runner` returns the
response's `result` payload, performs zero login calls, and does not write
the credential record. -/
theorem stored_token_accepted_zero_logins
    (oracle : Oracle) (request : Req) (rec : FileRecord) (s : Settings)
    (hparse : parseSettings rec = some s)
    (hok : (oracle.api 0 request s.token).error_code = 0) :
    runner oracle request none none ⟨some rec, 0, 0⟩ =
      (.ok (oracle.api 0 request s.token).result, ⟨some rec, 0, 1⟩) := by
  simp [runner, resolve_login_details, hparse, go, hok]

/-- Witness for C3 at a concrete stored record and accepting oracle. -/
theorem stored_token_accepted_zero_logins_witness :
    runner oracleAccept "req" none none
        ⟨some ⟨some "u", some "p", some "T"⟩, 0, 0⟩ =
      (.ok "payload", ⟨some ⟨some "u", some "p", some "T"⟩, 0, 1⟩) :=
  stored_token_accepted_zero_logins oracleAccept "req"
    ⟨some "u", some "p", some "T"⟩ ⟨"u", "p", "T"⟩ rfl rfl

/-- C6: supplying exactly one of the username/password flags fails with
`InvalidArguments`, leaving the state untouched (no file read took effect,
no login call, no API call). -/
theorem one_flag_invalid_arguments (oracle : Oracle) (request : Req)
    (v : String) (file : Option FileRecord) (l a : Nat) :
    runner oracle request (some v) none ⟨file, l, a⟩ =
      (.error .invalidArguments, ⟨file, l, a⟩) ∧
    runner oracle request none (some v) ⟨file, l, a⟩ =
      (.error .invalidArguments, ⟨file, l, a⟩) := by
  constructor <;> simp [runner, resolve_login_details]

/-- C7: with neither flag supplied, an existing (well-formed) record is
loaded as a `Stored` identity including its token, and a missing record
fails the invocation with `MissingConfiguration`. -/
theorem resolver_stored_or_missing (oracle : Oracle) (request : Req)
    (rec : FileRecord) (s : Settings) (hparse : parseSettings rec = some s) :
    resolve_login_details none none (some rec) = .ok (.Settings s) ∧
    rec.token = some s.token ∧
    resolve_login_details none none none = .error .missingConfiguration ∧
    (∀ l a : Nat, runner oracle request none none ⟨none, l, a⟩ =
      (.error .missingConfiguration, ⟨none, l, a⟩)) := by
  refine ⟨?_, ?_, rfl, ?_⟩
  · simp [resolve_login_details, hparse]
  · rw [parseSettings_eq_some rec s hparse]
  · intro l a
    simp [runner, resolve_login_details]

/-- Witness for C7 at a concrete record. -/
theorem resolver_stored_or_missing_witness :
    resolve_login_details none none (some ⟨some "u", some "p", some "T"⟩) =
      .ok (.Settings ⟨"u", "p", "T"⟩) :=
  (resolver_stored_or_missing oracleAccept "req"
    ⟨some "u", some "p", some "T"⟩ ⟨"u", "p", "T"⟩ rfl).1

/-- C9 counterexample: a record with `username` and `password` but no
`token` field is not loaded as a `Stored` identity; deserialization of
`Settings` fails (the `token` field of the struct is required) and the
invocation aborts. -/
theorem tokenless_record_counterexample :
    runner oracleAccept "req" none none
        ⟨some ⟨some "alice", some "pw", none⟩, 0, 0⟩ =
      (.error .parseError, ⟨some ⟨some "alice", some "pw", none⟩, 0, 0⟩) ∧
    ¬ ∃ s : Settings, resolve_login_details none none
        (some ⟨some "alice", some "pw", none⟩) = .ok (.Settings s) := by
  constructor
  · rfl
  · rintro ⟨s, h⟩
    simp [resolve_login_details, parseSettings] at h

/-- C9 amended: a record file missing the `token` field is rejected: the
`Settings` struct requires all three fields, so deserialization fails and
the invocation aborts with a parse failure instead of loading a `Stored`
identity. -/
theorem tokenless_record_rejected (oracle : Oracle) (request : Req)
    (u p : String) (l a : Nat) :
    parseSettings ⟨some u, some p, none⟩ = none ∧
    runner oracle request none none ⟨some ⟨some u, some p, none⟩, l, a⟩ =
      (.error .parseError, ⟨some ⟨some u, some p, none⟩, l, a⟩) := by
  refine ⟨rfl, ?_⟩
  simp [runner, resolve_login_details, parseSettings]

/-- If `get_new_token` succeeds, the remote accepted the login
(`error_code = 0`) and the returned token is the one in the response. -/
theorem get_new_token_ok (oracle : Oracle) (ld : LoginDetails) (st : St)
    (token : String) (st1 : St)
    (h : get_new_token oracle ld st = (.ok token, st1)) :
    (oracle.login st.loginCalls (login_credentials ld).1
      (login_credentials ld).2).error_code = 0 ∧
    (oracle.login st.loginCalls (login_credentials ld).1
      (login_credentials ld).2).token = some token := by
  simp only [get_new_token] at h
  split at h
  · simp at h
  · next hcode =>
    push_neg at hcode
    refine ⟨hcode, ?_⟩
    split at h
    · simp at h
    · next tk htk =>
      split at h <;> simp at h <;> simp [htk, h]

/-- Running `fetch_token_and_go` with explicit credentials never touches the
record file. -/
theorem fetch_token_and_go_explicit_file (oracle : Oracle) (request : Req)
    (u p : String) (st : St) :
    ((fetch_token_and_go oracle request (.UsernameAndPassword u p) st).2).file
      = st.file := by
  have hf := get_new_token_explicit_file oracle u p st
  unfold fetch_token_and_go
  rcases hg : get_new_token oracle (.UsernameAndPassword u p) st with ⟨res, st1⟩
  rw [hg] at hf
  cases res with
  | error e => simpa using hf
  | ok token =>
    have h2 := go_state oracle request token st1
    rcases hgo : go oracle request token st1 with ⟨ar, st2⟩
    rw [hgo] at h2
    cases ar <;> simp [hgo, h2] <;> simpa using hf

/-- Any `runner` invocation makes either zero or one login call. -/
theorem runner_loginCalls (o : Oracle) (r : Req) (u p : Option String)
    (st : St) :
    ((runner o r u p st).2).loginCalls = st.loginCalls ∨
    ((runner o r u p st).2).loginCalls = st.loginCalls + 1 := by
  unfold runner
  rcases hres : resolve_login_details u p st.file with e | ld
  · simp [hres]
  · cases ld with
    | Settings s =>
      have hg := go_state o r s.token st
      rcases hgo : go o r s.token st with ⟨ar, st1⟩
      rw [hgo] at hg
      cases ar with
      | Success r2 => simp [hres, hgo, hg]
      | Error e => simp [hres, hgo, hg]
      | TokenExpired =>
        right
        have hfl := fetch_token_and_go_loginCalls o r (.Settings s) st1
        have hst1 : st1.loginCalls = st.loginCalls := by
          simpa using congrArg St.loginCalls hg
        simp [hres, hgo, hfl, hst1]
    | UsernameAndPassword u2 p2 =>
      right
      have hfl := fetch_token_and_go_loginCalls o r (.UsernameAndPassword u2 p2) st
      simp [hres, hfl]

/-- C1: a `Stored` identity whose cached token is rejected with the expiry
sentinel and whose login and retried request succeed: `runner` performs
exactly one login call and exactly one retried request (two API calls in
total), returns the retried payload, and persists the record with the new
token while the username and password fields are the ones of the original
record. -/
theorem stored_token_expired_single_reauth
    (oracle : Oracle) (request : Req) (rec : FileRecord) (s : Settings)
    (t : String)
    (hparse : parseSettings rec = some s)
    (hexp : (oracle.api 0 request s.token).error_code = -20651)
    (hlog : (oracle.login 0 s.username s.password).error_code = 0)
    (htok : (oracle.login 0 s.username s.password).token = some t)
    (hretry : (oracle.api 1 request t).error_code = 0) :
    runner oracle request none none ⟨some rec, 0, 0⟩ =
      (.ok (oracle.api 1 request t).result,
        ⟨some ⟨some s.username, some s.password, some t⟩, 1, 2⟩) ∧
    rec.username = some s.username ∧ rec.password = some s.password := by
  refine ⟨?_, ?_, ?_⟩
  · simp [runner, resolve_login_details, hparse, fetch_token_and_go,
      get_new_token, go, login_credentials, write_settings, hexp, hlog,
      htok, hretry]
  · rw [parseSettings_eq_some rec s hparse]
  · rw [parseSettings_eq_some rec s hparse]

/-- A concrete environment for C1: the stale token is rejected once, the
login succeeds with token `T2`, the retried request succeeds. -/
def oracleRotate : Oracle :=
  { login := fun _ _ _ => ⟨0, some "T2", "lbody"⟩
    api := fun n _ _ =>
      if n = 0 then ⟨-20651, "", "ebody"⟩ else ⟨0, "payload2", "body"⟩ }

/-- Witness for C1 at a concrete stale record and rotating oracle. -/
theorem stored_token_expired_single_reauth_witness :
    runner oracleRotate "req" none none
        ⟨some ⟨some "u", some "p", some "stale"⟩, 0, 0⟩ =
      (.ok "payload2", ⟨some ⟨some "u", some "p", some "T2"⟩, 1, 2⟩) :=
  (stored_token_expired_single_reauth oracleRotate "req"
    ⟨some "u", some "p", some "stale"⟩ ⟨"u", "p", "stale"⟩ "T2"
    rfl rfl rfl rfl rfl).1

/-- C2: at most one re-authentication per invocation.  If the request
issued with the freshly minted token again reports the expiry sentinel,
`runner` fails with the protocol-invariant panic after exactly one login
and exactly two API calls; and in general any invocation makes at most one
login call. -/
theorem reauth_capped_at_one
    (oracle : Oracle) (request : Req) (rec : FileRecord) (s : Settings)
    (t : String)
    (hparse : parseSettings rec = some s)
    (hexp : (oracle.api 0 request s.token).error_code = -20651)
    (hlog : (oracle.login 0 s.username s.password).error_code = 0)
    (htok : (oracle.login 0 s.username s.password).token = some t)
    (hexp2 : (oracle.api 1 request t).error_code = -20651) :
    runner oracle request none none ⟨some rec, 0, 0⟩ =
      (.error .protocolInvariantViolation,
        ⟨some ⟨some s.username, some s.password, some t⟩, 1, 2⟩) ∧
    ∀ (o : Oracle) (r : Req) (u p : Option String) (f : Option FileRecord),
      ((runner o r u p ⟨f, 0, 0⟩).2).loginCalls ≤ 1 := by
  constructor
  · simp [runner, resolve_login_details, hparse, fetch_token_and_go,
      get_new_token, go, login_credentials, write_settings, hexp, hlog,
      htok, hexp2]
  · intro o r u p f
    rcases runner_loginCalls o r u p ⟨f, 0, 0⟩ with h | h <;> simp [h]

/-- A concrete environment for C2: every API response reports the expiry
sentinel, logins succeed. -/
def oracleExpire : Oracle :=
  { login := fun _ _ _ => ⟨0, some "T2", "lbody"⟩
    api := fun _ _ _ => ⟨-20651, "", "ebody"⟩ }

/-- Witness for C2: persistent expiry ends in the protocol-invariant
failure after exactly one login and two API calls. -/
theorem reauth_capped_at_one_witness :
    runner oracleExpire "req" none none
        ⟨some ⟨some "u", some "p", some "stale"⟩, 0, 0⟩ =
      (.error .protocolInvariantViolation,
        ⟨some ⟨some "u", some "p", some "T2"⟩, 1, 2⟩) :=
  (reauth_capped_at_one oracleExpire "req"
    ⟨some "u", some "p", some "stale"⟩ ⟨"u", "p", "stale"⟩ "T2"
    rfl rfl rfl rfl rfl).1

/-- C4: an `Explicit` identity (both flags supplied) performs exactly one
login call whatever the environment and whatever record exists at the
config path, and never writes the credential record file. -/
theorem explicit_one_login_no_write (oracle : Oracle) (request : Req)
    (u p : String) (file : Option FileRecord) :
    ((runner oracle request (some u) (some p) ⟨file, 0, 0⟩).2).loginCalls = 1 ∧
    ((runner oracle request (some u) (some p) ⟨file, 0, 0⟩).2).file = file := by
  constructor
  · have hfl := fetch_token_and_go_loginCalls oracle request
      (.UsernameAndPassword u p) ⟨file, 0, 0⟩
    simpa [runner, resolve_login_details] using hfl
  · have hff := fetch_token_and_go_explicit_file oracle request u p ⟨file, 0, 0⟩
    simpa [runner, resolve_login_details] using hff

/-- C5: the outcome of an authenticated API call is classified exclusively
by its `error_code`: `0` returns the `result` payload; `-20651` classifies
as `TokenExpired` and sends `runner` into the single re-authentication;
any other code is fatal for the call (`apiError` with zero logins, never a
retry). -/
theorem api_outcome_classified_by_error_code
    (oracle : Oracle) (request : Req) (rec : FileRecord) (s : Settings)
    (hparse : parseSettings rec = some s) :
    ((oracle.api 0 request s.token).error_code = 0 →
      runner oracle request none none ⟨some rec, 0, 0⟩ =
        (.ok (oracle.api 0 request s.token).result, ⟨some rec, 0, 1⟩)) ∧
    ((oracle.api 0 request s.token).error_code = -20651 →
      (go oracle request s.token ⟨some rec, 0, 0⟩).1 = .TokenExpired ∧
      runner oracle request none none ⟨some rec, 0, 0⟩ =
        fetch_token_and_go oracle request (.Settings s) ⟨some rec, 0, 1⟩) ∧
    ((oracle.api 0 request s.token).error_code ≠ 0 →
      (oracle.api 0 request s.token).error_code ≠ -20651 →
      runner oracle request none none ⟨some rec, 0, 0⟩ =
        (.error (.apiError (oracle.api 0 request s.token).body),
          ⟨some rec, 0, 1⟩)) := by
  refine ⟨?_, ?_, ?_⟩
  · intro h0
    simp [runner, resolve_login_details, hparse, go, h0]
  · intro hexp
    constructor
    · simp [go, hexp]
    · simp [runner, resolve_login_details, hparse, go, hexp]
  · intro hne0 hnexp
    simp [runner, resolve_login_details, hparse, go, hne0, hnexp]

/-- A concrete environment for C5: the API reports a fatal non-expiry
error code. -/
def oracleApiError : Oracle :=
  { login := fun _ _ _ => ⟨0, some "TOK", "lbody"⟩
    api := fun _ _ _ => ⟨-20571, "res", "ebody"⟩ }

/-- Witness for C5: a non-zero, non-sentinel `error_code` is fatal with
zero logins. -/
theorem api_outcome_classified_by_error_code_witness :
    runner oracleApiError "req" none none
        ⟨some ⟨some "u", some "p", some "T"⟩, 0, 0⟩ =
      (.error (.apiError "ebody"), ⟨some ⟨some "u", some "p", some "T"⟩, 0, 1⟩) :=
  (api_outcome_classified_by_error_code oracleApiError "req"
    ⟨some "u", some "p", some "T"⟩ ⟨"u", "p", "T"⟩ rfl).2.2
    (by decide) (by decide)

/-- C8: `setup` without the overwrite flag against an existing record
fails with the config-exists error, leaving the file and the call counters
untouched; with the overwrite flag the guard never fires and a successful
login replaces the file whatever was there before. -/
theorem setup_overwrite_guard
    (oracle : Oracle) (u p t : String) (rec : FileRecord)
    (file : Option FileRecord)
    (hlog : (oracle.login 0 u p).error_code = 0)
    (htok : (oracle.login 0 u p).token = some t) :
    setup oracle false u p ⟨some rec, 0, 0⟩ =
      (.error .configAlreadyExists, ⟨some rec, 0, 0⟩) ∧
    setup oracle true u p ⟨file, 0, 0⟩ =
      (.ok (), ⟨some ⟨some u, some p, some t⟩, 1, 0⟩) := by
  constructor
  · simp [setup]
  · simp [setup, get_new_token, login_credentials, write_settings, hlog, htok]

/-- Witness for C8 at a concrete record and accepting oracle. -/
theorem setup_overwrite_guard_witness :
    setup oracleAccept false "u" "p" ⟨some ⟨some "u", some "p", some "T"⟩, 0, 0⟩ =
      (.error .configAlreadyExists, ⟨some ⟨some "u", some "p", some "T"⟩, 0, 0⟩) ∧
    setup oracleAccept true "u" "p" ⟨some ⟨some "u", some "p", some "T"⟩, 0, 0⟩ =
      (.ok (), ⟨some ⟨some "u", some "p", some "TOK"⟩, 1, 0⟩) :=
  setup_overwrite_guard oracleAccept "u" "p" "TOK"
    ⟨some "u", some "p", some "T"⟩ (some ⟨some "u", some "p", some "T"⟩)
    rfl rfl

/-- C10: if the login performed during `setup` fails, the invocation
aborts and the record file is neither created nor modified; and whenever
`setup` succeeds, the login was accepted and the written record carries
exactly the token of that login response. -/
theorem setup_login_failure_writes_nothing
    (oracle : Oracle) (overwrite : Bool) (u p : String)
    (file : Option FileRecord)
    (hguard : ¬(overwrite = false ∧ file.isSome))
    (hfail : (oracle.login 0 u p).error_code ≠ 0) :
    setup oracle overwrite u p ⟨file, 0, 0⟩ =
      (.error (.authenticationError (oracle.login 0 u p).body), ⟨file, 1, 0⟩) ∧
    ∀ (o : Oracle) (ow : Bool) (u2 p2 : String) (f : Option FileRecord)
      (r : Unit) (st1 : St),
      setup o ow u2 p2 ⟨f, 0, 0⟩ = (.ok r, st1) →
      (o.login 0 u2 p2).error_code = 0 ∧
      st1.file = some ⟨some u2, some p2, (o.login 0 u2 p2).token⟩ := by
  constructor
  · simp [setup, hguard, get_new_token, login_credentials, hfail]
  · intro o ow u2 p2 f r st1 hset
    unfold setup at hset
    split at hset
    · simp at hset
    · rcases hg : get_new_token o (.UsernameAndPassword u2 p2) ⟨f, 0, 0⟩
        with ⟨res, stg⟩
      rw [hg] at hset
      cases res with
      | error e => simp at hset
      | ok tk =>
        have hok := get_new_token_ok o (.UsernameAndPassword u2 p2)
          ⟨f, 0, 0⟩ tk stg hg
        simp [login_credentials] at hok
        obtain ⟨hc0, htk⟩ := hok
        refine ⟨hc0, ?_⟩
        have hst1 : st1 = write_settings u2 p2 tk stg := by
          have := congrArg Prod.snd hset
          simpa using this.symm
        simp [hst1, write_settings, htk]

/-- A concrete environment for C10: the login endpoint rejects the
credentials. -/
def oracleLoginFail : Oracle :=
  { login := fun _ _ _ => ⟨-1, none, "denied"⟩
    api := fun _ _ _ => ⟨0, "res", "body"⟩ }

/-- Witness for C10: a rejected setup login leaves no file behind. -/
theorem setup_login_failure_writes_nothing_witness :
    setup oracleLoginFail true "u" "p" ⟨none, 1 - 1, 0⟩ =
      (.error (.authenticationError "denied"), ⟨none, 1, 0⟩) :=
  (setup_login_failure_writes_nothing oracleLoginFail true "u" "p" none
    (by simp) (by decide)).1
